import Mathlib

/-!
Verification development for the minimal target selector
(targets_minimal/new_targets_minimal.py).

The development shallow-embeds the parts of the program the claims are
about:

* the field-of-view geometry (TargetsMinimal.query_bounds, lines 152-213),
  embedded over the reals with Real.sin, Real.cos, Real.arcsin and
  Real.pi standing for the corresponding numpy functions;
* the SQL query built by TargetsMinimal.calculate_targets
  (lines 243-269), embedded as a small query AST together with a
  denotational evaluator over an in-memory catalog;
* the result formatting (TargetsMinimal.format_targets, lines 306-329);
* the message-handling control flow (TargetsMinimal.parse_msg,
  lines 117-150, and the receive loop of TargetsMinimal.start,
  lines 76-79), embedded as functions producing the trace of observable
  effects together with the Python exception, if any, escaping the call.

Machine floating point is idealised as real arithmetic; the string
operations of the program (str.split on a colon, float parsing) are
embedded as executable Lean functions on strings.
-/

open Real

namespace TargetsMinimal

/-- A bounding box as produced by query_bounds: the positional list
[ra_min, ra_max, dec_min, dec_max] of the source (all in radians). -/
structure BoundingBox where
  raMin : ℝ
  raMax : ℝ
  decMin : ℝ
  decMax : ℝ

/-- np.deg2rad. -/
noncomputable def deg2rad (x : ℝ) : ℝ := x * (π / 180)

/-- np.rad2deg. -/
noncomputable def rad2deg (x : ℝ) : ℝ := x * (180 / π)

open Classical in
/-- TargetsMinimal.query_bounds (lines 179-213), embedded over ℝ.

The branch structure follows the source exactly:
if dec + r >= pi/2 the single north-pole box [0, 2pi, dec - r, pi/2];
elif dec - r <= -pi/2 the single box with dec_min = pi/2 and
dec_max = dec + r, exactly as lines 186-187 assign them;
else dec_min = dec - r, dec_max = dec + r,
ra_off = arcsin(sin r / cos dec), ra_min = ra - ra_off,
ra_max = ra + ra_off, and then the wrap handling of lines 197-212,
in which line 198 computes ra_min_0 = 2*pi - ra_min (a subtraction)
and line 199 sets ra_max_0 = 0. -/
noncomputable def query_bounds (ra dec r : ℝ) : List BoundingBox :=
  if (dec + r) ≥ π/2 then
    [⟨0, 2*π, dec - r, π/2⟩]
  else if (dec - r) ≤ -(π/2) then
    [⟨0, 2*π, π/2, dec + r⟩]
  else
    let dec_min := dec - r
    let dec_max := dec + r
    let ra_off := Real.arcsin (Real.sin r / Real.cos dec)
    let ra_min := ra - ra_off
    let ra_max := ra + ra_off
    if ra_min < 0 then
      [⟨2*π - ra_min, 0, dec_min, dec_max⟩,
       ⟨0, ra_max, dec_min, dec_max⟩]
    else if ra_max > 2*π then
      [⟨ra_min, 2*π, dec_min, dec_max⟩,
       ⟨0, ra_max - 2*π, dec_min, dec_max⟩]
    else
      [⟨ra_min, ra_max, dec_min, dec_max⟩]

/-- A catalog row of the target_list table: columns
source_id, ra (deg), decl (deg), dist_c. -/
structure Record where
  source_id : String
  ra : ℝ
  decl : ℝ
  dist_c : ℝ

/-- The FROM part of the query built in calculate_targets
(lines 243-264): two rectangular ranges, one, or a full scan,
depending on the number of bounding boxes. All numbers in degrees,
as formatted into the SQL text. -/
inductive SqlFrom where
  | boxFilter2 (raMin0 raMax0 raMin1 raMax1 decMin decMax : ℝ)
  | boxFilter1 (raMin raMax decMin decMax : ℝ)
  | fullScan

/-- The box_query construction of calculate_targets lines 243-264:
len(bounds) > 1 uses boxes 0 and 1 (with the declination range taken
from box 0 alone, as the source does at line 251); len(bounds) == 1
uses the single box; otherwise the raw table. The radian bounds are
converted to degrees (np.rad2deg, line 244-245 and 253). -/
noncomputable def buildBoxQuery : List BoundingBox → SqlFrom
  | b1 :: b2 :: _ =>
      .boxFilter2 (rad2deg b1.raMin) (rad2deg b1.raMax)
        (rad2deg b2.raMin) (rad2deg b2.raMax)
        (rad2deg b1.decMin) (rad2deg b1.decMax)
  | [b] =>
      .boxFilter1 (rad2deg b.raMin) (rad2deg b.raMax)
        (rad2deg b.decMin) (rad2deg b.decMax)
  | [] => .fullScan

/-- The full targets_query of lines 265-269: the box query wrapped in
the spherical law-of-cosines filter. decC and raC are the pointing
coordinates in radians (np.deg2rad applied at line 269), radius the
beam radius in radians. -/
structure TargetsQuery where
  box : SqlFrom
  decC : ℝ
  raC : ℝ
  radius : ℝ

noncomputable def buildTargetsQuery (bounds : List BoundingBox)
    (decC raC radius : ℝ) : TargetsQuery :=
  ⟨buildBoxQuery bounds, decC, raC, radius⟩

/-- The WHERE clause of the box query applied to one row
(strict comparisons, as the source SQL uses > and <). -/
def rowInFrom : SqlFrom → Record → Prop
  | .fullScan, _ => True
  | .boxFilter1 raMin raMax decMin decMax, t =>
      (raMin < t.ra ∧ t.ra < raMax) ∧ (decMin < t.decl ∧ t.decl < decMax)
  | .boxFilter2 raMin0 raMax0 raMin1 raMax1 decMin decMax, t =>
      ((raMin0 < t.ra ∧ t.ra < raMax0) ∨ (raMin1 < t.ra ∧ t.ra < raMax1))
        ∧ (decMin < t.decl ∧ t.decl < decMax)

/-- The spherical law-of-cosines separation of the SQL filter at
line 268: ACOS(SIN(decl)*SIN(decC) + COS(decl)*COS(decC)*COS(raC - ra)),
all arguments in radians. -/
noncomputable def sphericalSep (decC raC dec ra : ℝ) : ℝ :=
  Real.arccos (Real.sin dec * Real.sin decC
    + Real.cos dec * Real.cos decC * Real.cos (raC - ra))

/-- The trigonometric WHERE clause of targets_query (line 268) applied to
one row: the row coordinates are stored in degrees and converted by the
SQL RADIANS function. -/
noncomputable def rowInTrig (q : TargetsQuery) (t : Record) : Prop :=
  sphericalSep q.decC q.raC (deg2rad t.decl) (deg2rad t.ra) < q.radius

open Classical in
/-- Evaluation of the box query over an in-memory table. -/
noncomputable def evalFrom (f : SqlFrom) (rows : List Record) : List Record :=
  rows.filter (fun t => decide (rowInFrom f t))

open Classical in
/-- The trigonometric WHERE clause of targets_query applied to a list of
rows. -/
noncomputable def trigFilter (q : TargetsQuery) (rows : List Record) :
    List Record :=
  rows.filter (fun t => decide (rowInTrig q t))

/-- Evaluation of the complete targets_query: the trigonometric filter
applied to the rows produced by the box query. -/
noncomputable def evalTargetsQuery (q : TargetsQuery) (rows : List Record) :
    List Record :=
  trigFilter q (evalFrom q.box rows)

/-- Membership of a sky position (radians) in a bounding box, with the
strict comparisons the generated SQL uses. -/
def inBoundingBox (b : BoundingBox) (ra dec : ℝ) : Prop :=
  b.raMin < ra ∧ ra < b.raMax ∧ b.decMin < dec ∧ dec < b.decMax

/-- One element of the output target list: a dict with keys source_id,
ra and dec. -/
structure TargetEntry where
  source_id : String
  ra : ℝ
  dec : ℝ

/-- TargetsMinimal.format_targets (lines 306-329): starts from the
one-element list holding the pointing dict and appends, in source order,
one entry per dataframe row, projecting columns 0 (source_id), 1 (ra)
and 2 (decl); column 3 (dist_c) is dropped. The trailing json.dumps
serialisation is not modelled: the function returns the list that would
be serialised. -/
def format_targets (df : List Record) (pointing_dict : TargetEntry) :
    List TargetEntry :=
  df.foldl (fun output_list t =>
    output_list ++ [⟨t.source_id, t.ra, t.decl⟩]) [pointing_dict]

/-- Splitting a character list at every occurrence of the character sep,
the semantics of Python str.split with a one-character separator. -/
def splitChar (sep : Char) : List Char → List (List Char)
  | [] => [[]]
  | c :: rest =>
      let r := splitChar sep rest
      if c = sep then [] :: r
      else
        match r with
        | [] => [[c]]
        | h :: t => (c :: h) :: t

/-- Python msg_data.split on a colon (line 136). -/
def pySplitColon (s : String) : List String :=
  (splitChar ':' s.data).map String.mk

/-- The digits of a character list read as a natural number; none when
the list is empty or contains a non-digit character. -/
def digitsToNat : List Char → Option ℕ
  | [] => none
  | cs =>
      if cs.all Char.isDigit then
        some (cs.foldl (fun a c => 10 * a + (c.toNat - 48)) 0)
      else none

/-- Python float(s) (lines 144-146) restricted to plain decimal
literals: an optional leading minus sign, an integer part, and an
optional fractional part after a dot. Returns none exactly when the
string is not such a literal, modelling the ValueError float raises on a
non-numeric field. -/
def parseDecimal (s : String) : Option ℚ :=
  let signAndBody : ℚ × List Char :=
    match s.data with
    | '-' :: rest => (-1, rest)
    | cs => (1, cs)
  match splitChar '.' signAndBody.2 with
  | [w] => (digitsToNat w).map (fun n => signAndBody.1 * n)
  | [w, f] =>
      match digitsToNat w, digitsToNat f with
      | some wn, some fn =>
          some (signAndBody.1 * ((wn : ℚ) + (fn : ℚ) / 10 ^ f.length))
      | _, _ => none
  | _ => none

/-- A Python exception escaping the embedded code: the ValueError of a
failed float conversion (carrying the offending field), or an exception
raised by the catalog query execution of pd.read_sql. -/
inductive PyErr where
  | valueError (field : String)
  | dbError

/-- One observable effect of the listener: a log line (carrying the data
that the source formats into the log text), the catalog read, or a Redis
write or publish. -/
inductive Effect where
  | logProcessing (msgData : String)
  | logWarningUnrecognised (msgData : String)
  | logCalculating (targetName : String) (raDeg decDeg : ℚ)
  | logApplyingBox
  | dbRead
  | logRetrieved (n : ℕ)
  | redisSet (key : String) (value : List TargetEntry)
  | publish (channel : String) (message : String)

/-- The external collaborators of the listener: whether catalog query
execution succeeds, the contents of the target_list table, and the
configured outbound channel name. -/
structure ListenerEnv where
  catalogOk : Bool
  catalogRows : List Record
  targetsChannel : String

/-- TargetsMinimal.calculate_targets (lines 215-291) at the level of its
observable effects, returning the effect trace together with the
escaping exception, if any. The beam radius of line 239 uses scipy's
speed of light 299792458 m/s and the fixed 25 m dish diameter; the query
building of lines 243-273 is embedded by buildTargetsQuery, its
execution by evalTargetsQuery. pd.read_sql (line 280) succeeds or raises
according to the environment; on failure the exception escapes, since
the source has no handler, and neither the Redis set of line 290 nor the
publish of line 291 happens. -/
noncomputable def calculate_targets (env : ListenerEnv)
    (subarray target_name : String) (ra_deg dec_deg fecenter : ℚ)
    (obsid : String) : List Effect × Option PyErr :=
  let effects := [Effect.logCalculating target_name ra_deg dec_deg,
                  Effect.logApplyingBox]
  let beam_radius : ℝ := 0.5 * (299792458 / ((fecenter : ℝ) * 1000000)) / 25
  let bounds := query_bounds (deg2rad (ra_deg : ℝ)) (deg2rad (dec_deg : ℝ))
    beam_radius
  let targets_query := buildTargetsQuery bounds (deg2rad (dec_deg : ℝ))
    (deg2rad (ra_deg : ℝ)) beam_radius
  if env.catalogOk then
    let target_list := evalTargetsQuery targets_query env.catalogRows
    let pointing_dict : TargetEntry :=
      ⟨target_name, (ra_deg : ℝ), (dec_deg : ℝ)⟩
    let json_list := format_targets target_list pointing_dict
    (effects ++ [Effect.dbRead, Effect.logRetrieved target_list.length,
                 Effect.redisSet ("targets:" ++ obsid) json_list,
                 Effect.publish env.targetsChannel ("targets:" ++ obsid)],
     none)
  else
    (effects, some PyErr.dbError)

/-- The body of TargetsMinimal.parse_msg (lines 135-150) applied to the
colon-split components of the message. With exactly 7 fields the
processing log of line 139 is emitted and then the three numeric fields
are converted in the order of lines 144-146, a failed conversion raising
a ValueError that escapes (the source has no handler); with any other
field count the warning of line 150 is emitted and nothing else
happens. -/
noncomputable def parse_fields (env : ListenerEnv) (msg_data : String) :
    List String → List Effect × Option PyErr
  | [telescope_name, subarray, pktstart_ts, target_name, raS, decS, fecS] =>
      let logged := [Effect.logProcessing msg_data]
      match parseDecimal raS with
      | none => (logged, some (PyErr.valueError raS))
      | some ra_deg =>
          match parseDecimal decS with
          | none => (logged, some (PyErr.valueError decS))
          | some dec_deg =>
              match parseDecimal fecS with
              | none => (logged, some (PyErr.valueError fecS))
              | some fecenter =>
                  let obsid := telescope_name ++ ":" ++ subarray ++ ":"
                    ++ pktstart_ts
                  let res := calculate_targets env subarray target_name
                    ra_deg dec_deg fecenter obsid
                  (logged ++ res.1, res.2)
  | _ => ([Effect.logWarningUnrecognised msg_data], none)

/-- TargetsMinimal.parse_msg (lines 117-150): split the message data on
colons and process the fields. -/
noncomputable def parse_msg (env : ListenerEnv) (msg_data : String) :
    List Effect × Option PyErr :=
  parse_fields env msg_data (pySplitColon msg_data)

/-- The receive loop of TargetsMinimal.start (lines 76-79): each message
is handed to parse_msg; the loop has no exception handler, so the first
escaping exception terminates it, leaving the remaining messages
unprocessed. Returns the concatenated effect trace and the escaping
exception, if any. -/
noncomputable def listen_loop (env : ListenerEnv) :
    List String → List Effect × Option PyErr
  | [] => ([], none)
  | m :: rest =>
      match parse_msg env m with
      | (effs, some e) => (effs, some e)
      | (effs, none) =>
          let r := listen_loop env rest
          (effs ++ r.1, r.2)

end TargetsMinimal

namespace TargetsMinimal

/-- C10: query_bounds always returns exactly one or exactly two bounding
boxes, never zero; consequently the zero-box full-scan branch of the
query builder is unreachable for bounds produced by query_bounds. -/
theorem query_bounds_length (ra dec r : ℝ) :
    ((query_bounds ra dec r).length = 1 ∨ (query_bounds ra dec r).length = 2)
      ∧ buildBoxQuery (query_bounds ra dec r) ≠ SqlFrom.fullScan := by
  unfold query_bounds
  dsimp only
  split_ifs <;> simp [buildBoxQuery]

/-- Evaluation of query_bounds at the antimeridian example
ra = 1 degree (pi/180), dec = 0, r = 5 degrees (pi/36): the offset is
arcsin(sin(pi/36)/cos 0) = pi/36, so ra_min = -pi/45 < 0 and the wrap
branch of lines 197-203 fires, producing first box
[2*pi - ra_min, 0] = [2*pi + pi/45, 0] and second box [0, pi/30]. -/
theorem query_bounds_at_one_degree :
    query_bounds (π/180) 0 (π/36) =
      [⟨2*π + π/45, 0, -(π/36), π/36⟩, ⟨0, π/30, -(π/36), π/36⟩] := by
  have hπ := Real.pi_pos
  have hoff : Real.arcsin (Real.sin (π/36) / Real.cos 0) = π/36 := by
    rw [Real.cos_zero, div_one, Real.arcsin_sin] <;> linarith
  unfold query_bounds
  dsimp only
  rw [hoff]
  rw [if_neg (by push_neg; linarith), if_neg (by push_neg; linarith),
    if_pos (by linarith)]
  simp only [List.cons.injEq, BoundingBox.mk.injEq, and_true, List.cons_ne_nil]
  refine ⟨⟨by ring, by ring, by ring, by ring⟩, by ring, by ring, by ring, by ring⟩

/-- C1: at ra = 1 degree, dec = 0, r = 5 degrees the code returns two
boxes, but the first is [2*pi + pi/45, 0] x [-pi/36, pi/36] rather than
the claimed [2*pi - pi/45, 2*pi] x [-pi/36, pi/36]: line 198 computes
2*pi - ra_min instead of 2*pi + ra_min and line 199 sets the upper RA
bound to 0 instead of 2*pi. The first box is an empty RA interval, so
the union of the boxes does not cover [355, 360) degrees of RA. -/
theorem antimeridian_first_box_bug :
    query_bounds (π/180) 0 (π/36) =
      [⟨2*π + π/45, 0, -(π/36), π/36⟩, ⟨0, π/30, -(π/36), π/36⟩]
    ∧ (⟨2*π + π/45, 0, -(π/36), π/36⟩ : BoundingBox)
        ≠ ⟨2*π - π/45, 2*π, -(π/36), π/36⟩
    ∧ ¬ ∃ x : ℝ, 2*π + π/45 < x ∧ x < 0 := by
  have hπ := Real.pi_pos
  refine ⟨query_bounds_at_one_degree, ?_, ?_⟩
  · intro h
    rw [BoundingBox.mk.injEq] at h
    linarith [h.1]
  · rintro ⟨x, hx1, hx2⟩
    linarith

/-- C2: the stage-1 rectangular pre-filter excludes a true match: for the
pointing ra = 1 degree, dec = 0, r = 5 degrees, the sky position at
RA 358 degrees, dec 0 has angular separation 3 degrees (pi/60) from the
pointing, below the radius pi/36, yet lies in neither of the two boxes
returned by query_bounds, because the first box is the empty RA interval
[2*pi + pi/45, 0]. -/
theorem prefilter_excludes_true_match :
    sphericalSep 0 (π/180) 0 (358*π/180) < π/36
    ∧ ∀ b ∈ query_bounds (π/180) 0 (π/36),
        ¬ inBoundingBox b (358*π/180) 0 := by
  have hπ := Real.pi_pos
  constructor
  · have e1 : Real.sin (0:ℝ) * Real.sin 0
        + Real.cos (0:ℝ) * Real.cos 0 * Real.cos (π/180 - 358*π/180)
        = Real.cos (2*π - π/60) := by
      rw [Real.sin_zero, Real.cos_zero]
      have e2 : π/180 - 358*π/180 = -(2*π - π/60) := by ring
      rw [e2, Real.cos_neg]
      ring
    unfold sphericalSep
    rw [e1, Real.cos_two_pi_sub,
      Real.arccos_cos (by linarith) (by linarith)]
    linarith
  · intro b hb
    rw [query_bounds_at_one_degree] at hb
    simp only [List.mem_cons, List.mem_singleton, List.not_mem_nil,
      or_false] at hb
    rcases hb with h | h <;> subst h <;>
      rintro ⟨h1, h2, h3, h4⟩ <;> dsimp at * <;> linarith

/-- C5 counterexample: for ra = 0, dec = -89 degrees, r = 5 degrees the
south-pole branch fires (dec - r = -94 degrees is below -pi/2), and the
single box returned carries decMin = pi/2 and decMax = dec + r, not the
claimed decMin = dec + r and decMax = pi/2. -/
theorem south_pole_box_counterexample :
    query_bounds 0 (-(89*π/180)) (π/36) =
      [⟨0, 2*π, π/2, -(89*π/180) + π/36⟩]
    ∧ (⟨0, 2*π, π/2, -(89*π/180) + π/36⟩ : BoundingBox)
        ≠ ⟨0, 2*π, -(89*π/180) + π/36, π/2⟩ := by
  have hπ := Real.pi_pos
  constructor
  · unfold query_bounds
    dsimp only
    rw [if_neg (by push_neg; linarith), if_pos (by linarith)]
  · intro h
    rw [BoundingBox.mk.injEq] at h
    linarith [h.2.2.1]

/-- C5 amended: whenever 0 < r < pi/2, dec + r < pi/2 and
dec - r <= -pi/2, query_bounds returns exactly one box spanning the full
RA range, but with decMin = pi/2 and decMax = dec + r (the inverted
assignment of source lines 186-187), not decMin = dec + r and
decMax = pi/2. -/
theorem south_pole_box_amended (ra dec r : ℝ) (hr0 : 0 < r) (hr : r < π/2)
    (h1 : dec + r < π/2) (h2 : dec - r ≤ -(π/2)) :
    query_bounds ra dec r = [⟨0, 2*π, π/2, dec + r⟩] := by
  unfold query_bounds
  dsimp only
  rw [if_neg (not_le.mpr h1), if_pos h2]

/-- C5 amended, witness at ra = 0, dec = -89 degrees, r = 5 degrees. -/
theorem south_pole_box_amended_witness :
    query_bounds 0 (-(89*π/180)) (π/36) =
      [⟨0, 2*π, π/2, -(89*π/180) + π/36⟩] := by
  have hπ := Real.pi_pos
  exact south_pole_box_amended 0 (-(89*π/180)) (π/36)
    (by linarith) (by linarith) (by linarith) (by linarith)

/-- C6: when dec + r < pi/2, dec - r > -pi/2, and the RA interval derived
from the offset arcsin(sin r / cos dec) stays within [0, 2*pi],
query_bounds returns exactly one box
[ra - offset, ra + offset, dec - r, dec + r]. -/
theorem single_box_normal_case (ra dec r : ℝ) (hr : r < π/2)
    (h1 : dec + r < π/2) (h2 : -(π/2) < dec - r)
    (h3 : 0 ≤ ra - Real.arcsin (Real.sin r / Real.cos dec))
    (h4 : ra + Real.arcsin (Real.sin r / Real.cos dec) ≤ 2*π) :
    query_bounds ra dec r =
      [⟨ra - Real.arcsin (Real.sin r / Real.cos dec),
        ra + Real.arcsin (Real.sin r / Real.cos dec), dec - r, dec + r⟩] := by
  unfold query_bounds
  dsimp only
  rw [if_neg (not_le.mpr h1), if_neg (not_le.mpr h2),
    if_neg (not_lt.mpr h3), if_neg (not_lt.mpr h4)]

/-- C6 witness at ra = pi, dec = 0, r = 5 degrees, where the offset is
arcsin(sin(pi/36)/cos 0) = pi/36. -/
theorem single_box_normal_case_witness :
    query_bounds π 0 (π/36) =
      [⟨π - Real.arcsin (Real.sin (π/36) / Real.cos 0),
        π + Real.arcsin (Real.sin (π/36) / Real.cos 0),
        0 - π/36, 0 + π/36⟩] := by
  have hπ := Real.pi_pos
  have hoff : Real.arcsin (Real.sin (π/36) / Real.cos 0) = π/36 := by
    rw [Real.cos_zero, div_one, Real.arcsin_sin] <;> linarith
  exact single_box_normal_case π 0 (π/36) (by linarith) (by linarith)
    (by linarith) (by rw [hoff]; linarith) (by rw [hoff]; linarith)

/-- parse_fields answers the warning branch on every field list whose
length is not 7. -/
theorem parse_fields_of_length_ne_seven (env : ListenerEnv) (m : String)
    (fields : List String) (h : fields.length ≠ 7) :
    parse_fields env m fields = ([Effect.logWarningUnrecognised m], none) := by
  rcases fields with _ | ⟨a, _ | ⟨b, _ | ⟨c, _ | ⟨d, _ | ⟨e, _ | ⟨f, _ |
    ⟨g, _ | ⟨h8, tl⟩⟩⟩⟩⟩⟩⟩⟩
  all_goals first
    | rfl
    | exact absurd rfl h

/-- C7: a message whose colon-split does not have exactly 7 fields is
logged as a warning and dropped: parse_msg emits exactly the warning
effect, raises nothing, and performs no geometry computation, catalog
query, store write or publish. -/
theorem malformed_message_dropped (env : ListenerEnv) (m : String)
    (h : (pySplitColon m).length ≠ 7) :
    parse_msg env m = ([Effect.logWarningUnrecognised m], none) := by
  unfold parse_msg
  exact parse_fields_of_length_ne_seven env m _ h

/-- C7 witness: a 6-field message is dropped with only the warning. -/
theorem malformed_message_dropped_witness :
    parse_msg ⟨true, [], "target-channel"⟩ "MeerKAT:array1:169:3C286:202.78:30.51"
      = ([Effect.logWarningUnrecognised "MeerKAT:array1:169:3C286:202.78:30.51"],
         none) :=
  malformed_message_dropped ⟨true, [], "target-channel"⟩
    "MeerKAT:array1:169:3C286:202.78:30.51" (by decide)

/-- C3 counterexample: the 7-field message whose RA field is the
non-numeric string abc makes the float conversion raise; the exception
escapes parse_msg into the receive loop, which stops, so the following
well-formed message is never processed — contradicting the claim that
the failure is logged and the listener continues. -/
theorem parse_failure_crashes_listener :
    listen_loop ⟨true, [], "target-channel"⟩
        ["MeerKAT:array1:169:3C286:abc:30:1420",
         "MeerKAT:array1:170:3C286:202:30:1420"] =
      ([Effect.logProcessing "MeerKAT:array1:169:3C286:abc:30:1420"],
       some (PyErr.valueError "abc")) := by
  rfl

/-- C3 amended: a 7-field message with a non-numeric ra, dec or
centerFrequency field raises an uncaught ValueError that escapes
parse_msg into the receive loop: only the processing log is emitted for
that message, no downstream effect occurs for it, and the loop
terminates without processing the remaining messages. -/
theorem parse_failure_propagates (env : ListenerEnv) (m : String)
    (rest : List String) (t s p n raS decS fecS : String)
    (hsplit : pySplitColon m = [t, s, p, n, raS, decS, fecS])
    (hfail : parseDecimal raS = none ∨ parseDecimal decS = none
      ∨ parseDecimal fecS = none) :
    (listen_loop env (m :: rest)).1 = [Effect.logProcessing m]
    ∧ ∃ bad, (listen_loop env (m :: rest)).2
        = some (PyErr.valueError bad) := by
  have hp : ∃ bad, parse_msg env m
      = ([Effect.logProcessing m], some (PyErr.valueError bad)) := by
    unfold parse_msg
    rw [hsplit]
    cases h1 : parseDecimal raS with
    | none => exact ⟨raS, by simp [parse_fields, h1]⟩
    | some ra =>
      cases h2 : parseDecimal decS with
      | none => exact ⟨decS, by simp [parse_fields, h1, h2]⟩
      | some dec =>
        cases h3 : parseDecimal fecS with
        | none => exact ⟨fecS, by simp [parse_fields, h1, h2, h3]⟩
        | some fec =>
          exfalso
          rcases hfail with h | h | h
          · rw [h1] at h; exact Option.noConfusion h
          · rw [h2] at h; exact Option.noConfusion h
          · rw [h3] at h; exact Option.noConfusion h
  obtain ⟨bad, hf⟩ := hp
  refine ⟨?_, bad, ?_⟩ <;> simp [listen_loop, hf]

/-- C3 amended, witness: a concrete message with non-numeric dec
field. -/
theorem parse_failure_propagates_witness :
    (listen_loop ⟨true, [], "target-channel"⟩
        ["tel:sub:1:tgt:10:oops:1420", "tel:sub:2:tgt:10:20:1420"]).1
      = [Effect.logProcessing "tel:sub:1:tgt:10:oops:1420"]
    ∧ ∃ bad, (listen_loop ⟨true, [], "target-channel"⟩
        ["tel:sub:1:tgt:10:oops:1420", "tel:sub:2:tgt:10:20:1420"]).2
      = some (PyErr.valueError bad) :=
  parse_failure_propagates ⟨true, [], "target-channel"⟩
    "tel:sub:1:tgt:10:oops:1420" ["tel:sub:2:tgt:10:20:1420"]
    "tel" "sub" "1" "tgt" "10" "oops" "1420" (by decide)
    (Or.inr (Or.inl (by decide)))

/-- C4 counterexample: with failing catalog query execution, a
well-formed message makes pd.read_sql raise; the exception is not logged
and escapes into the receive loop, which stops without processing the
next message — contradicting the claim that the failure is logged and
the listener keeps awaiting messages. -/
theorem catalog_failure_crashes_listener :
    listen_loop ⟨false, [], "target-channel"⟩
        ["MeerKAT:array1:169:3C286:202:30:1420",
         "MeerKAT:array1:170:3C286:202:30:1420"] =
      ([Effect.logProcessing "MeerKAT:array1:169:3C286:202:30:1420",
        Effect.logCalculating "3C286" 202 30,
        Effect.logApplyingBox],
       some PyErr.dbError) := by
  have h1 : parseDecimal "202" = some 202 := by
    rw [show parseDecimal "202" = some ((1:ℚ) * ((202:ℕ):ℚ)) from rfl,
      one_mul, Nat.cast_ofNat]
  have h2 : parseDecimal "30" = some 30 := by
    rw [show parseDecimal "30" = some ((1:ℚ) * ((30:ℕ):ℚ)) from rfl,
      one_mul, Nat.cast_ofNat]
  have h3 : parseDecimal "1420" = some 1420 := by
    rw [show parseDecimal "1420" = some ((1:ℚ) * ((1420:ℕ):ℚ)) from rfl,
      one_mul, Nat.cast_ofNat]
  have hp : parse_msg ⟨false, [], "target-channel"⟩
      "MeerKAT:array1:169:3C286:202:30:1420"
      = ([Effect.logProcessing "MeerKAT:array1:169:3C286:202:30:1420",
          Effect.logCalculating "3C286" 202 30,
          Effect.logApplyingBox], some PyErr.dbError) := by
    unfold parse_msg
    rw [show pySplitColon "MeerKAT:array1:169:3C286:202:30:1420"
      = ["MeerKAT", "array1", "169", "3C286", "202", "30", "1420"] from by decide]
    simp [parse_fields, h1, h2, h3, calculate_targets]
  simp [listen_loop, hp]

/-- C4 amended: when catalog query execution fails for a well-formed
message, nothing is stored and nothing is published for that pointing
event, but the failure is not logged and the exception escapes the
receive loop: the listener stops and the remaining messages are not
processed. -/
theorem catalog_failure_propagates (env : ListenerEnv) (m : String)
    (rest : List String) (t s p n raS decS fecS : String)
    (hsplit : pySplitColon m = [t, s, p, n, raS, decS, fecS])
    (ra dec fec : ℚ)
    (hra : parseDecimal raS = some ra) (hdec : parseDecimal decS = some dec)
    (hfec : parseDecimal fecS = some fec)
    (hdb : env.catalogOk = false) :
    listen_loop env (m :: rest) =
      ([Effect.logProcessing m, Effect.logCalculating n ra dec,
        Effect.logApplyingBox], some PyErr.dbError) := by
  have hp : parse_msg env m =
      ([Effect.logProcessing m, Effect.logCalculating n ra dec,
        Effect.logApplyingBox], some PyErr.dbError) := by
    unfold parse_msg
    rw [hsplit]
    simp [parse_fields, hra, hdec, hfec, calculate_targets, hdb]
  simp [listen_loop, hp]

/-- C4 amended, witness at a concrete well-formed message and a failing
catalog. -/
theorem catalog_failure_propagates_witness :
    listen_loop ⟨false, [], "target-channel"⟩
        ["tel:sub:1:tgt:10:20:1420", "tel:sub:2:tgt:10:20:1420"] =
      ([Effect.logProcessing "tel:sub:1:tgt:10:20:1420",
        Effect.logCalculating "tgt" 10 20,
        Effect.logApplyingBox], some PyErr.dbError) :=
  catalog_failure_propagates ⟨false, [], "target-channel"⟩
    "tel:sub:1:tgt:10:20:1420" ["tel:sub:2:tgt:10:20:1420"]
    "tel" "sub" "1" "tgt" "10" "20" "1420" (by decide)
    10 20 1420
    (by rw [show parseDecimal "10" = some ((1:ℚ) * ((10:ℕ):ℚ)) from rfl,
      one_mul, Nat.cast_ofNat])
    (by rw [show parseDecimal "20" = some ((1:ℚ) * ((20:ℕ):ℚ)) from rfl,
      one_mul, Nat.cast_ofNat])
    (by rw [show parseDecimal "1420" = some ((1:ℚ) * ((1420:ℕ):ℚ)) from rfl,
      one_mul, Nat.cast_ofNat])
    rfl

/-- Unrolling the appending fold of format_targets. -/
theorem format_targets_foldl (df : List Record) (acc : List TargetEntry) :
    df.foldl (fun output_list t =>
        output_list ++ [⟨t.source_id, t.ra, t.decl⟩]) acc
      = acc ++ df.map (fun t => ⟨t.source_id, t.ra, t.decl⟩) := by
  induction df generalizing acc with
  | nil => simp
  | cons t ts ih => simp [ih]

/-- C8: format_targets always returns the pointing dict as element 0
followed by one entry per catalog record in input order, each projecting
only source_id, ra and decl (dist_c is dropped); on an empty record list
the result is the one-element list holding only the pointing. -/
theorem format_targets_shape (df : List Record) (p : TargetEntry) :
    format_targets df p
        = p :: df.map (fun t => ⟨t.source_id, t.ra, t.decl⟩)
    ∧ format_targets [] p = [p] := by
  constructor
  · unfold format_targets
    rw [format_targets_foldl]
    rfl
  · rfl

/-- C9: the built query applies the trigonometric separation filter only
to the rows surviving the stage-1 box filter; with one or two boxes the
FROM clause is a box filter, never the raw table; and with zero boxes
the FROM clause degrades to a full scan, whose evaluation is the whole
catalog filtered by the separation predicate alone — still correct
rather than an error. -/
theorem two_stage_query (bounds : List BoundingBox) (decC raC radius : ℝ)
    (catalog : List Record) :
    evalTargetsQuery (buildTargetsQuery bounds decC raC radius) catalog
        = trigFilter (buildTargetsQuery bounds decC raC radius)
            (evalFrom (buildBoxQuery bounds) catalog)
    ∧ (bounds ≠ [] → buildBoxQuery bounds ≠ SqlFrom.fullScan)
    ∧ (bounds = [] →
        evalTargetsQuery (buildTargetsQuery bounds decC raC radius) catalog
          = trigFilter (buildTargetsQuery bounds decC raC radius) catalog) := by
  refine ⟨rfl, ?_, ?_⟩
  · intro hne
    cases bounds with
    | nil => exact absurd rfl hne
    | cons b l => cases l <;> simp [buildBoxQuery]
  · intro he
    subst he
    have h0 : evalFrom (buildBoxQuery ([] : List BoundingBox)) catalog
        = catalog := by
      classical
      unfold buildBoxQuery evalFrom
      exact List.filter_eq_self.mpr (fun a _ => decide_eq_true trivial)
    unfold evalTargetsQuery
    rw [show (buildTargetsQuery [] decC raC radius).box
      = buildBoxQuery [] from rfl, h0]

/-- C9 witness: with one box the FROM clause is not a full scan. -/
theorem two_stage_query_witness :
    buildBoxQuery [⟨0, 1, 0, 1⟩] ≠ SqlFrom.fullScan :=
  (two_stage_query [⟨0, 1, 0, 1⟩] 0 0 0 []).2.1 (by simp)

end TargetsMinimal
